import Mathlib

/-!
Verification of the telemetry pipeline of the Prometheus/Grafana Flask demo
(`.history/app_20250618114951.py`, `.history/app_20250706113427.py`,
`.history/load-test_20250618112717.py`).

The Python source is shallowly embedded: percentages and durations become `ℚ`,
counters become `ℕ`, the health score becomes `ℤ`, Prometheus gauges become
`Option ℚ` fields (`none` = never written), histogram/counter label streams
become lists of recorded label tuples, and exceptions become an explicit
`Exc` datatype.  Each definition mirrors one Python function and is annotated
with its source location.
-/

/-- Embeds `SystemMonitor.calculate_health_score` (app_20250618114951.py,
lines 166-194).  The Python method reads `self.error_count` and
`self.total_requests` for the error-rate tier, so those two pieces of monitor
state are explicit arguments here; the three percentage arguments are the
method's parameters.  Each tier is exclusive (`elif`), and the result is
`max(0, score)`. -/
def calculate_health_score (cpu_percent memory_percent disk_percent : ℚ)
    (error_count total_requests : ℕ) : ℤ :=
  let score : ℤ := 100
  let score := if cpu_percent > 80 then score - 30
    else if cpu_percent > 60 then score - 15 else score
  let score := if memory_percent > 90 then score - 25
    else if memory_percent > 70 then score - 10 else score
  let score := if disk_percent > 95 then score - 20
    else if disk_percent > 85 then score - 10 else score
  let score :=
    if total_requests > 0 then
      let current_error_rate : ℚ := ((error_count : ℚ) / (total_requests : ℚ)) * 100
      if current_error_rate > 10 then score - 20
      else if current_error_rate > 5 then score - 10 else score
    else score
  max 0 score

/-- The spec's four-input health scorer `HealthScorer.score(cpu_pct, mem_pct,
disk_pct, error_rate_pct)` (spec §4.5), written with the error rate as an
explicit fourth argument; used to compare the code's stateful method against
the spec's pure-function view. -/
def score_spec (cpu_pct mem_pct disk_pct error_rate_pct : ℚ) : ℤ :=
  let score : ℤ := 100
  let score := if cpu_pct > 80 then score - 30
    else if cpu_pct > 60 then score - 15 else score
  let score := if mem_pct > 90 then score - 25
    else if mem_pct > 70 then score - 10 else score
  let score := if disk_pct > 95 then score - 20
    else if disk_pct > 85 then score - 10 else score
  let score := if error_rate_pct > 10 then score - 20
    else if error_rate_pct > 5 then score - 10 else score
  max 0 score

/-- The error rate the monitor state induces: `(error_count / total_requests) * 100`
when any request has been seen (app_20250618114951.py line 188), `0` before. -/
def monitor_error_rate (error_count total_requests : ℕ) : ℚ :=
  if total_requests > 0 then ((error_count : ℚ) / (total_requests : ℚ)) * 100 else 0

/-- Factoring lemma: the code's method is the four-input scorer applied to the
monitor state's induced error rate. -/
theorem calculate_health_score_eq_score_spec (cpu mem disk : ℚ)
    (ec tr : ℕ) :
    calculate_health_score cpu mem disk ec tr =
      score_spec cpu mem disk (monitor_error_rate ec tr) := by
  unfold calculate_health_score score_spec monitor_error_rate
  by_cases htr : tr > 0
  · simp [htr]
  · simp [htr]
    norm_num

/-- C1 (counterexample): the claim asserts `score(100,100,100,100) = 0`, but the
code yields `5`: the four penalty tiers sum to at most `30+25+20+20 = 95`, so the
clamp to `0` never binds.  Evaluated on the monitor state `error_count = 1`,
`total_requests = 1`, whose induced error rate is `100`. -/
theorem c1_score_at_saturation_is_five_not_zero :
    calculate_health_score 100 100 100 1 1 = 5 ∧
      score_spec 100 100 100 100 = 5 ∧
      ¬ calculate_health_score 100 100 100 1 1 = 0 := by
  refine ⟨?_, ?_, ?_⟩ <;> norm_num [calculate_health_score, score_spec]

/-- C1 (amended): the health scorer is a deterministic function of exactly the
four inputs cpu_pct, mem_pct, disk_pct, error_rate_pct — the code's stateful
method factors through the pure four-input scorer at the state's induced error
rate — computing: start at 100; subtract 30 if cpu > 80 else 15 if cpu > 60;
subtract 25 if mem > 90 else 10 if mem > 70; subtract 20 if disk > 95 else 10
if disk > 85; subtract 20 if rate > 10 else 10 if rate > 5; clamp to a minimum
of 0.  In particular score(50,50,50,0) = 100, score(85,50,50,0) = 70,
score(85,95,96,12) = 5, and score(100,100,100,100) = 5 (not 0: the maximum
total penalty is 95, so the clamp never binds). -/
theorem c1_health_scorer_pure_function_of_four_inputs :
    (∀ (cpu mem disk : ℚ) (ec tr : ℕ),
        calculate_health_score cpu mem disk ec tr =
          score_spec cpu mem disk (monitor_error_rate ec tr)) ∧
      score_spec 50 50 50 0 = 100 ∧
      score_spec 85 50 50 0 = 70 ∧
      score_spec 85 95 96 12 = 5 ∧
      score_spec 100 100 100 100 = 5 := by
  refine ⟨calculate_health_score_eq_score_spec, ?_, ?_, ?_, ?_⟩ <;>
    norm_num [score_spec]

set_option maxHeartbeats 1000000 in
/-- Bounds for the four-input scorer, by exhausting the tier combinations. -/
theorem score_spec_bounds (cpu mem disk rate : ℚ) :
    0 ≤ score_spec cpu mem disk rate ∧ score_spec cpu mem disk rate ≤ 100 := by
  simp only [score_spec]
  split_ifs <;> exact ⟨by norm_num, by norm_num⟩

/-- C6: for all rational inputs and any monitor state, the health score lies in
the closed interval [0, 100]: the clamp `max 0 _` gives the lower bound and the
tiers only ever subtract from 100. -/
theorem c6_health_score_bounded :
    ∀ (cpu mem disk : ℚ) (ec tr : ℕ),
      0 ≤ calculate_health_score cpu mem disk ec tr ∧
        calculate_health_score cpu mem disk ec tr ≤ 100 := by
  intro cpu mem disk ec tr
  rw [calculate_health_score_eq_score_spec]
  exact score_spec_bounds cpu mem disk (monitor_error_rate ec tr)

/-- Embeds the error-rate expression of `health_check` (app_20250618114951.py
line 994): `(error_count / max(total_requests, 1)) * 100`.  The route handler
additionally rounds the displayed value to two decimals; that display
formatting is omitted here. -/
def current_rate (error_count total_requests : ℕ) : ℚ :=
  ((error_count : ℚ) / max (total_requests : ℚ) 1) * 100

/-- C2: for requests ≥ errors ≥ 0, the derived error rate — both the
`max(requests, 1)` form used by the health-check endpoint and the guarded
`(errors/requests)*100` form used by the gauge updates — equals
100·errors/requests when requests > 0 and equals 0 when requests = 0, so the
denominator is never 0. -/
theorem c2_current_rate_no_div_by_zero (ec tr : ℕ) (hle : ec ≤ tr) :
    (0 < tr →
        current_rate ec tr = 100 * (ec : ℚ) / (tr : ℚ) ∧
          monitor_error_rate ec tr = 100 * (ec : ℚ) / (tr : ℚ)) ∧
      (tr = 0 → current_rate ec tr = 0 ∧ monitor_error_rate ec tr = 0) := by
  constructor
  · intro htr
    have h1 : (1 : ℚ) ≤ (tr : ℚ) := by exact_mod_cast htr
    constructor
    · unfold current_rate
      rw [max_eq_left h1]
      ring
    · unfold monitor_error_rate
      simp [htr]
      ring
  · intro htr
    subst htr
    have hec : ec = 0 := Nat.le_zero.mp hle
    subst hec
    constructor
    · unfold current_rate
      norm_num
    · unfold monitor_error_rate
      norm_num

/-- Witness for C2 at errors = 1, requests = 4. -/
theorem c2_current_rate_no_div_by_zero_witness :
    current_rate 1 4 = 100 * (1 : ℚ) / (4 : ℚ) ∧
      monitor_error_rate 1 4 = 100 * (1 : ℚ) / (4 : ℚ) :=
  (c2_current_rate_no_div_by_zero 1 4 (by norm_num)).1 (by norm_num)

/-- Label triple of the `http_requests_total` counter (method, endpoint,
status_code), app_20250618114951.py lines 48-52. -/
structure ReqLabels where
  method : String
  endpoint : String
  status_code : ℕ
deriving DecidableEq, Repr

/-- The in-process telemetry state touched by the request lifecycle of
app_20250618114951.py: the `SystemMonitor` counters (lines 125-128), the
`error_rate` and `last_error_timestamp` gauges (lines 109-110), and the four
per-request metric streams written by `after_request` (lines 48-71), each
modelled as the list of recorded observations. -/
structure AppState where
  error_count : ℕ
  total_requests : ℕ
  error_rate_gauge : ℚ
  last_error_timestamp : Option ℚ
  http_requests_total : List ReqLabels
  http_request_duration_seconds : List (String × String × ℚ)
  http_request_size_bytes : List (String × String × ℕ)
  http_response_size_bytes : List (String × String × ℕ)
deriving DecidableEq, Repr

/-- Process-start state: counters zero, `error_rate` gauge at its Prometheus
default 0, `last_error_timestamp` never set, no observations recorded. -/
def initState : AppState :=
  ⟨0, 0, 0, none, [], [], [], []⟩

/-- Embeds `SystemMonitor.increment_error` (app_20250618114951.py lines
196-200): bump `error_count`, set `last_error_timestamp` to the current time,
and rewrite the `error_rate` gauge only when `total_requests > 0`. -/
def increment_error (now : ℚ) (s : AppState) : AppState :=
  let s := { s with error_count := s.error_count + 1, last_error_timestamp := some now }
  if s.total_requests > 0 then
    { s with error_rate_gauge := ((s.error_count : ℚ) / (s.total_requests : ℚ)) * 100 }
  else s

/-- Embeds `SystemMonitor.increment_request` (app_20250618114951.py lines
202-205): bump `total_requests` and rewrite the `error_rate` gauge (the
`total_requests > 0` guard always holds after the bump). -/
def increment_request (s : AppState) : AppState :=
  let s := { s with total_requests := s.total_requests + 1 }
  if s.total_requests > 0 then
    { s with error_rate_gauge := ((s.error_count : ℚ) / (s.total_requests : ℚ)) * 100 }
  else s

/-- The literal path exclusion list of `before_request`
(app_20250618114951.py line 239). -/
def before_request_skip_paths : List String :=
  ["/favicon.ico", "/health", "/metrics"]

/-- The literal path exclusion list of `after_request`
(app_20250618114951.py line 245). -/
def after_request_skip_paths : List String :=
  ["/favicon.ico", "/metrics"]

/-- The path at which the health-check route is registered
(`@app.route('/api/health')`, app_20250618114951.py line 965). -/
def health_route_path : String := "/api/health"

/-- Embeds the `before_request` hook (app_20250618114951.py lines 233-241):
the start time and request id live in the per-request context (not modelled
here); the monitor's request counter is bumped unless the path is in the
literal skip list. -/
def before_request (path : String) (s : AppState) : AppState :=
  if path ∈ before_request_skip_paths then s else increment_request s

/-- Embeds the `after_request` hook (app_20250618114951.py lines 243-281):
when the request context carries a start time and the path is not in the
post-hook skip list, record the request-counter label triple, the latency
observation, and the request/response size observations. -/
def after_request (method path : String) (status_code : ℕ) (duration : ℚ)
    (request_size response_size : ℕ) (has_start_time : Bool)
    (s : AppState) : AppState :=
  if has_start_time ∧ path ∉ after_request_skip_paths then
    { s with
      http_requests_total := s.http_requests_total ++ [⟨method, path, status_code⟩],
      http_request_duration_seconds :=
        s.http_request_duration_seconds ++ [(method, path, duration)],
      http_request_size_bytes := s.http_request_size_bytes ++ [(method, path, request_size)],
      http_response_size_bytes := s.http_response_size_bytes ++ [(method, path, response_size)] }
  else s

/-- An exception reaching the `@app.errorhandler(Exception)` boundary: either a
werkzeug `HTTPException` carrying its declared status code and description, or
any other exception carrying its type name and message. -/
inductive Exc where
  | http (code : ℕ) (description : String) (msg : String)
  | other (type_name : String) (msg : String)
deriving DecidableEq, Repr

/-- The normalized JSON error body returned by `handle_exception`
(app_20250618114951.py lines 306-310): message, machine-readable error id,
and timestamp. -/
structure ErrorBody where
  error : String
  error_id : String
  timestamp : String
deriving DecidableEq, Repr

/-- Embeds `handle_exception` (app_20250618114951.py lines 283-311): bump the
monitor's error counter, then answer with the exception's declared code and
description when it is an `HTTPException`, else status 500 with the generic
message; the body always carries the fresh error id and timestamp, never the
raw message of an unrecognized exception. -/
def handle_exception (e : Exc) (error_id timestamp : String) (now : ℚ)
    (s : AppState) : AppState × ErrorBody × ℕ :=
  let s := increment_error now s
  match e with
  | .http code description _ => (s, ⟨description, error_id, timestamp⟩, code)
  | .other _ _ => (s, ⟨"Internal Server Error", error_id, timestamp⟩, 500)

/-- The JSON error body of the second app version's `handle_exception`
(app_20250706113427.py lines 130-136): fields `error` and `message`. -/
structure ErrorBodyV2 where
  error : String
  message : String
deriving DecidableEq, Repr

/-- Embeds `handle_exception` of app_20250706113427.py (lines 130-136): every
exception is answered with status 500 and the body
`{"error": "Internal Server Error", "message": str(e)}` — the raw exception
message is placed in the response and no error id or timestamp is present. -/
def handle_exception_v2 (msg : String) : ErrorBodyV2 × ℕ :=
  (⟨"Internal Server Error", msg⟩, 500)

/-- Outcome of the route handler for one request: a response with a status
code, or a raised exception that reaches `@app.errorhandler(Exception)`. -/
inductive Outcome where
  | ok (status_code : ℕ)
  | raises (e : Exc)
deriving DecidableEq, Repr

/-- One inbound request together with the per-request data the hooks consume:
path and method, measured duration, body sizes, the freshly generated error id
and timestamp (used only if the handler raises), the current time, and the
handler outcome. -/
structure Req where
  path : String
  method : String
  duration : ℚ
  request_size : ℕ
  response_size : ℕ
  error_id : String
  timestamp : String
  now : ℚ
  outcome : Outcome
deriving DecidableEq, Repr

/-- Flask dispatch of one request through the instrumentation of
app_20250618114951.py: `before_request` runs first (it always sets
`request.start_time`), then the handler; an exception is turned into a
response by `handle_exception`, and `after_request` runs on the final
response either way. -/
def processRequest (r : Req) (s : AppState) : AppState :=
  let s1 := before_request r.path s
  match r.outcome with
  | .ok status =>
    after_request r.method r.path status r.duration r.request_size r.response_size true s1
  | .raises e =>
    let res := handle_exception e r.error_id r.timestamp r.now s1
    after_request r.method r.path res.2.2 r.duration r.request_size r.response_size true res.1

/-- A reachable telemetry state: the fold of `processRequest` over any finite
sequence of requests starting from the process-start state. -/
def runRequests (rs : List Req) (s : AppState) : AppState :=
  rs.foldl (fun s r => processRequest r s) s

/-- C3 (failing run): a single `GET /health` — the path the pre-hook excludes,
at which no route is registered, so Flask raises 404 `NotFound` into the error
handler — leaves the process with `error_count = 1 > 0 = total_requests`: the
claimed invariant `errors ≤ requests` fails at a reachable state. -/
theorem c3_error_count_can_exceed_request_count :
    (runRequests
        [⟨"/health", "GET", 0, 0, 0, "id-1", "ts-1", 0,
          .raises (.http 404 "Not Found" "404 Not Found")⟩] initState).error_count = 1 ∧
      (runRequests
        [⟨"/health", "GET", 0, 0, 0, "id-1", "ts-1", 0,
          .raises (.http 404 "Not Found" "404 Not Found")⟩] initState).total_requests = 0 ∧
      ¬ (runRequests
        [⟨"/health", "GET", 0, 0, 0, "id-1", "ts-1", 0,
          .raises (.http 404 "Not Found" "404 Not Found")⟩] initState).error_count ≤
        (runRequests
        [⟨"/health", "GET", 0, 0, 0, "id-1", "ts-1", 0,
          .raises (.http 404 "Not Found" "404 Not Found")⟩] initState).total_requests := by
  refine ⟨?_, ?_, ?_⟩ <;>
    simp [runRequests, processRequest, before_request, after_request,
      before_request_skip_paths, after_request_skip_paths, handle_exception,
      increment_error, initState]

/-- C4 (counterexample): a request to '/metrics' whose handler raises an
unrecognized exception does NOT increment the total-request count — the
pre-hook skips '/metrics' — while the error handler still bumps the error
count, so the two counts do not move together for that request. -/
theorem c4_metrics_error_increments_requests_by_zero :
    (processRequest
        ⟨"/metrics", "GET", 0, 0, 0, "id-2", "ts-2", 0,
          .raises (.other "Exception" "boom")⟩ initState).total_requests = 0 ∧
      (processRequest
        ⟨"/metrics", "GET", 0, 0, 0, "id-2", "ts-2", 0,
          .raises (.other "Exception" "boom")⟩ initState).error_count = 1 := by
  constructor <;>
    simp [processRequest, before_request, after_request,
      before_request_skip_paths, after_request_skip_paths, handle_exception,
      increment_error, initState]

/-- Helper: `after_request` never touches the monitor counters or the
error-rate gauge, only the four observation streams. -/
theorem after_request_preserves_counters (method path : String) (status : ℕ)
    (duration : ℚ) (request_size response_size : ℕ) (hst : Bool) (s : AppState) :
    (after_request method path status duration request_size response_size hst s).error_count
        = s.error_count ∧
      (after_request method path status duration request_size response_size hst s).total_requests
        = s.total_requests ∧
      (after_request method path status duration request_size response_size hst s).error_rate_gauge
        = s.error_rate_gauge := by
  unfold after_request
  split <;> simp

/-- C4 (amended): for every request whose path is NOT in the pre-hook's
exclusion list ('/favicon.ico', '/health', '/metrics') and whose handler
raises an unrecognized error, processing that single request increments the
total-request count by exactly one and the total-error count by exactly one,
and afterwards the error-rate gauge equals 100 × errors/requests recomputed
from the two updated counts. -/
theorem c4_counted_error_request_updates_both_counts (r : Req) (s : AppState)
    (t m : String)
    (hpath : r.path ∉ before_request_skip_paths)
    (hout : r.outcome = .raises (.other t m)) :
    (processRequest r s).total_requests = s.total_requests + 1 ∧
      (processRequest r s).error_count = s.error_count + 1 ∧
      (processRequest r s).error_rate_gauge =
        100 * ((processRequest r s).error_count : ℚ) /
          ((processRequest r s).total_requests : ℚ) := by
  unfold processRequest
  rw [hout]
  simp only [before_request, if_neg hpath, handle_exception]
  obtain ⟨h1, h2, h3⟩ := after_request_preserves_counters r.method r.path 500
    r.duration r.request_size r.response_size true
    (increment_error r.now (increment_request s))
  rw [h1, h2, h3]
  refine ⟨?_, ?_, ?_⟩
  · simp [increment_error, increment_request]
  · simp [increment_error, increment_request]
  · simp [increment_error, increment_request]
    ring

/-- Witness for C4 (amended) at a concrete counted request. -/
theorem c4_counted_error_request_updates_both_counts_witness :
    (processRequest
        ⟨"/api/users", "GET", 1, 10, 20, "id-3", "ts-3", 7,
          .raises (.other "Exception" "Simulated database connection error")⟩
        initState).total_requests = 1 ∧
      (processRequest
        ⟨"/api/users", "GET", 1, 10, 20, "id-3", "ts-3", 7,
          .raises (.other "Exception" "Simulated database connection error")⟩
        initState).error_count = 1 ∧
      (processRequest
        ⟨"/api/users", "GET", 1, 10, 20, "id-3", "ts-3", 7,
          .raises (.other "Exception" "Simulated database connection error")⟩
        initState).error_rate_gauge =
        100 * ((processRequest
        ⟨"/api/users", "GET", 1, 10, 20, "id-3", "ts-3", 7,
          .raises (.other "Exception" "Simulated database connection error")⟩
        initState).error_count : ℚ) /
          ((processRequest
        ⟨"/api/users", "GET", 1, 10, 20, "id-3", "ts-3", 7,
          .raises (.other "Exception" "Simulated database connection error")⟩
        initState).total_requests : ℚ) := by
  have h0 := c4_counted_error_request_updates_both_counts
    ⟨"/api/users", "GET", 1, 10, 20, "id-3", "ts-3", 7,
      .raises (.other "Exception" "Simulated database connection error")⟩
    initState "Exception" "Simulated database connection error"
    (by simp [before_request_skip_paths]) rfl
  simpa [initState] using h0

/-- C5 (amended, for app_20250618114951.py): every error reaching the handler
yields a body carrying the machine-readable error id and timestamp; a
recognized `HTTPException` is answered with its declared status code and its
own description; an unrecognized exception is answered with status 500 and the
generic message "Internal Server Error", and the response is independent of
the raw internal error message.  (The older handler in app_20250706113427.py
violates this; see the counterexample.) -/
theorem c5_error_body_normalized_v3 :
    (∀ (e : Exc) (error_id timestamp : String) (now : ℚ) (s : AppState),
        (handle_exception e error_id timestamp now s).2.1.error_id = error_id ∧
          (handle_exception e error_id timestamp now s).2.1.timestamp = timestamp) ∧
      (∀ (code : ℕ) (description msg error_id timestamp : String) (now : ℚ) (s : AppState),
        (handle_exception (.http code description msg) error_id timestamp now s).2 =
          (⟨description, error_id, timestamp⟩, code)) ∧
      (∀ (t msg error_id timestamp : String) (now : ℚ) (s : AppState),
        (handle_exception (.other t msg) error_id timestamp now s).2 =
          (⟨"Internal Server Error", error_id, timestamp⟩, 500)) ∧
      (∀ (t m₁ m₂ error_id timestamp : String) (now : ℚ) (s : AppState),
        handle_exception (.other t m₁) error_id timestamp now s =
          handle_exception (.other t m₂) error_id timestamp now s) := by
  refine ⟨?_, ?_, ?_, ?_⟩
  · intro e error_id timestamp now s
    cases e <;> exact ⟨rfl, rfl⟩
  · intro code description msg error_id timestamp now s
    rfl
  · intro t msg error_id timestamp now s
    rfl
  · intro t m₁ m₂ error_id timestamp now s
    rfl

/-- C5 (counterexample): the handler of app_20250706113427.py places the raw
internal error message `str(e)` verbatim in the response body (and its body
has no error id and no timestamp field at all), for an unrecognized internal
failure. -/
theorem c5_v2_handler_leaks_raw_message :
    (handle_exception_v2 "connection to db 10.0.0.5 failed").1.message =
        "connection to db 10.0.0.5 failed" ∧
      (handle_exception_v2 "connection to db 10.0.0.5 failed").2 = 500 ∧
      handle_exception_v2 "msg-a" ≠ handle_exception_v2 "msg-b" := by
  refine ⟨rfl, rfl, ?_⟩
  simp [handle_exception_v2]

/-- Helper: `increment_error` never touches the request counter or the four
observation streams. -/
theorem increment_error_preserves (now : ℚ) (s : AppState) :
    (increment_error now s).total_requests = s.total_requests ∧
      (increment_error now s).http_requests_total = s.http_requests_total ∧
      (increment_error now s).http_request_duration_seconds = s.http_request_duration_seconds ∧
      (increment_error now s).http_request_size_bytes = s.http_request_size_bytes ∧
      (increment_error now s).http_response_size_bytes = s.http_response_size_bytes := by
  refine ⟨?_, ?_, ?_, ?_, ?_⟩ <;> (simp only [increment_error]; split <;> rfl)

/-- C8: a request whose path is '/metrics' changes no request-traffic
telemetry, whatever its method, timings, sizes, or outcome: the pre-hook skips
the total-request increment, and the post-hook records nothing into the HTTP
request counter, the latency histogram, or the two size histograms. -/
theorem c8_metrics_path_excluded_from_traffic_metrics :
    ∀ (method : String) (duration : ℚ) (request_size response_size : ℕ)
      (error_id timestamp : String) (now : ℚ) (outcome : Outcome) (s : AppState),
      (processRequest
          ⟨"/metrics", method, duration, request_size, response_size,
            error_id, timestamp, now, outcome⟩ s).total_requests = s.total_requests ∧
        (processRequest
          ⟨"/metrics", method, duration, request_size, response_size,
            error_id, timestamp, now, outcome⟩ s).http_requests_total =
          s.http_requests_total ∧
        (processRequest
          ⟨"/metrics", method, duration, request_size, response_size,
            error_id, timestamp, now, outcome⟩ s).http_request_duration_seconds =
          s.http_request_duration_seconds ∧
        (processRequest
          ⟨"/metrics", method, duration, request_size, response_size,
            error_id, timestamp, now, outcome⟩ s).http_request_size_bytes =
          s.http_request_size_bytes ∧
        (processRequest
          ⟨"/metrics", method, duration, request_size, response_size,
            error_id, timestamp, now, outcome⟩ s).http_response_size_bytes =
          s.http_response_size_bytes := by
  intro method duration request_size response_size error_id timestamp now outcome s
  cases outcome with
  | ok status =>
    refine ⟨?_, ?_, ?_, ?_, ?_⟩ <;>
      simp [processRequest, before_request, after_request,
        before_request_skip_paths, after_request_skip_paths]
  | raises e =>
    cases e <;>
      refine ⟨?_, ?_, ?_, ?_, ?_⟩ <;>
        simp [processRequest, before_request, after_request,
          before_request_skip_paths, after_request_skip_paths, handle_exception,
          increment_error_preserves]

/-- C10: the pre-hook's exclusion list contains the literal '/health' while the
health route is registered at '/api/health', so every successful request to the
actual health-check path is counted as user traffic: the total-request count is
incremented and the post-hook records it in the HTTP request metrics. -/
theorem c10_api_health_polling_is_counted :
    health_route_path = "/api/health" ∧
      "/health" ∈ before_request_skip_paths ∧
      health_route_path ∉ before_request_skip_paths ∧
      before_request_skip_paths = ["/favicon.ico", "/health", "/metrics"] ∧
      (∀ (method : String) (duration : ℚ) (request_size response_size : ℕ)
        (error_id timestamp : String) (now : ℚ) (status : ℕ) (s : AppState),
        (processRequest
            ⟨health_route_path, method, duration, request_size, response_size,
              error_id, timestamp, now, .ok status⟩ s).total_requests =
            s.total_requests + 1 ∧
          (processRequest
            ⟨health_route_path, method, duration, request_size, response_size,
              error_id, timestamp, now, .ok status⟩ s).http_requests_total =
            s.http_requests_total ++ [⟨method, health_route_path, status⟩] ∧
          (processRequest
            ⟨health_route_path, method, duration, request_size, response_size,
              error_id, timestamp, now, .ok status⟩ s).http_request_duration_seconds =
            s.http_request_duration_seconds ++ [(method, health_route_path, duration)]) := by
  refine ⟨rfl, by simp [before_request_skip_paths],
    by simp [before_request_skip_paths, health_route_path], rfl, ?_⟩
  intro method duration request_size response_size error_id timestamp now status s
  refine ⟨?_, ?_, ?_⟩ <;>
    simp [processRequest, before_request, after_request, health_route_path,
      before_request_skip_paths, after_request_skip_paths, increment_request]

/-- Result of `psutil.virtual_memory()`: used and available bytes and the used
percentage (app_20250618114951.py lines 139-142). -/
structure MemInfo where
  used : ℚ
  avail : ℚ
  percent : ℚ
deriving DecidableEq, Repr

/-- Result of `psutil.disk_usage('/')`: used and total bytes
(app_20250618114951.py lines 144-147). -/
structure DiskInfo where
  used : ℚ
  total : ℚ
deriving DecidableEq, Repr

/-- The resource reads one sampling tick performs, in source order; `none`
means that call raised (the `except` clause of `collect_system_metrics`
catches it and the rest of the tick body is skipped). -/
structure SampleReads where
  cpu : Option ℚ
  memory : Option MemInfo
  disk : Option DiskInfo
  net_connections : Option ℕ
deriving DecidableEq, Repr

/-- The gauges `collect_system_metrics` writes (app_20250618114951.py lines
84-109): `none` means the gauge has never been written. -/
structure SamplerGauges where
  system_cpu_usage_percent : Option ℚ
  system_memory_usage_bytes : Option ℚ
  system_memory_available_bytes : Option ℚ
  system_disk_usage_percent : Option ℚ
  app_uptime_seconds : Option ℚ
  app_health_score : Option ℤ
  database_connection_pool_size : Option ℕ
  active_connections : Option ℕ
deriving DecidableEq, Repr

/-- Gauge state at process start: nothing written yet. -/
def initGauges : SamplerGauges :=
  ⟨none, none, none, none, none, none, none, none⟩

/-- Embeds `SystemMonitor.collect_system_metrics` (app_20250618114951.py lines
130-164).  The whole body sits in one `try`: each resource read either yields a
value (and the subsequent gauge writes happen) or raises, in which case the
exception is caught, the remaining writes of this tick are skipped, and the
writes already performed stay.  `now - start` is the uptime, `pool` stands for
the `random.randint(5, 25)` draw, and `ec`/`tr` are the monitor counters the
health score reads. -/
def collect_system_metrics (r : SampleReads) (now start : ℚ) (pool : ℕ)
    (ec tr : ℕ) (g : SamplerGauges) : SamplerGauges :=
  match r.cpu with
  | none => g
  | some cpu =>
    let g := { g with system_cpu_usage_percent := some cpu }
    match r.memory with
    | none => g
    | some mem =>
      let g := { g with
        system_memory_usage_bytes := some mem.used,
        system_memory_available_bytes := some mem.avail }
      match r.disk with
      | none => g
      | some disk =>
        let disk_usage_percent := disk.used / disk.total * 100
        let g := { g with system_disk_usage_percent := some disk_usage_percent }
        let g := { g with app_uptime_seconds := some (now - start) }
        let g := { g with
          app_health_score :=
            some (calculate_health_score cpu mem.percent disk_usage_percent ec tr) }
        let g := { g with database_connection_pool_size := some pool }
        match r.net_connections with
        | none => g
        | some n => { g with active_connections := some n }

/-- The data one iteration of the background loop consumes: the tick's resource
reads, the current time, the pool-size draw, and the monitor counters. -/
structure Tick where
  reads : SampleReads
  now : ℚ
  pool : ℕ
  error_count : ℕ
  total_requests : ℕ
deriving DecidableEq, Repr

/-- Embeds the `monitor_loop` body of `start_system_monitoring`
(app_20250618114951.py lines 210-219): `while True: collect; sleep(interval)`.
The infinite daemon loop is modelled on an arbitrary finite prefix of tick
inputs; the result carries the final gauges, the number of collect calls
executed, and the total time slept. -/
def monitor_loop (interval start : ℚ) (ticks : List Tick)
    (g : SamplerGauges) : SamplerGauges × ℕ × ℚ :=
  match ticks with
  | [] => (g, 0, 0)
  | t :: rest =>
    let g1 := collect_system_metrics t.reads t.now start t.pool
      t.error_count t.total_requests g
    let res := monitor_loop interval start rest g1
    (res.1, res.2.1 + 1, res.2.2 + interval)

/-- Helper: the loop executes one collect per tick and accumulates
`interval` of sleep per tick, whatever the ticks' reads do. -/
theorem monitor_loop_count_and_sleep (interval start : ℚ) (ticks : List Tick)
    (g : SamplerGauges) :
    (monitor_loop interval start ticks g).2.1 = ticks.length ∧
      (monitor_loop interval start ticks g).2.2 = interval * ticks.length := by
  induction ticks generalizing g with
  | nil => simp [monitor_loop]
  | cons t rest ih =>
    obtain ⟨ih1, ih2⟩ := ih (collect_system_metrics t.reads t.now start t.pool
      t.error_count t.total_requests g)
    constructor
    · simp [monitor_loop, ih1]
    · simp [monitor_loop, ih2]
      ring

/-- C7 (counterexample): a tick in which collecting system metrics raises —
here the memory read fails after the cpu read succeeded with 42 — is caught,
but the gauge writes of that tick are NOT all skipped: the cpu gauge, written
before the failure point, keeps its fresh value. -/
theorem c7_failing_tick_still_writes_cpu_gauge :
    (collect_system_metrics ⟨some 42, none, none, none⟩ 5 0 7 0 0
        initGauges).system_cpu_usage_percent = some 42 ∧
      ¬ collect_system_metrics ⟨some 42, none, none, none⟩ 5 0 7 0 0 initGauges
          = initGauges := by
  constructor
  · rfl
  · intro h
    have h2 := congrArg SamplerGauges.system_cpu_usage_percent h
    simp [collect_system_metrics, initGauges] at h2

/-- C7 (amended): the background sampling loop never terminates because of a
sampling failure: for any finite prefix of ticks it executes exactly one
collect per tick and sleeps the configured interval after each (so the tick
after any failing tick still executes); an exception in the tick body is
caught, the gauge writes after the failure point are skipped, and in
particular a tick whose first resource read (the cpu sample) raises leaves
every gauge untouched.  Writes made before the failure point remain. -/
theorem c7_sampling_failure_never_stops_loop :
    (∀ (interval start : ℚ) (ticks : List Tick) (g : SamplerGauges),
        (monitor_loop interval start ticks g).2.1 = ticks.length ∧
          (monitor_loop interval start ticks g).2.2 = interval * ticks.length) ∧
      (∀ (interval start : ℚ) (t : Tick) (rest : List Tick) (g : SamplerGauges),
        (monitor_loop interval start (t :: rest) g).1 =
          (monitor_loop interval start rest
            (collect_system_metrics t.reads t.now start t.pool
              t.error_count t.total_requests g)).1) ∧
      (∀ (r : SampleReads) (now start : ℚ) (pool ec tr : ℕ) (g : SamplerGauges),
        r.cpu = none →
          collect_system_metrics r now start pool ec tr g = g) := by
  refine ⟨monitor_loop_count_and_sleep, ?_, ?_⟩
  · intro interval start t rest g
    rfl
  · intro r now start pool ec tr g hcpu
    unfold collect_system_metrics
    rw [hcpu]

/-- Witness for C7 at a concrete tick whose cpu read raises. -/
theorem c7_sampling_failure_never_stops_loop_witness :
    collect_system_metrics ⟨none, none, none, none⟩ 3 0 9 2 5 initGauges =
      initGauges :=
  c7_sampling_failure_never_stops_loop.2.2 ⟨none, none, none, none⟩ 3 0 9 2 5
    initGauges rfl

/-- The fixed normal-endpoint list of the load tester
(load-test_20250618112717.py lines 17-24). -/
def endpoints : List String :=
  ["/", "/api/health", "/api/users", "/api/products", "/api/orders", "/about"]

/-- The fixed error-endpoint list of the load tester
(load-test_20250618112717.py lines 25-28). -/
def error_endpoints : List String :=
  ["/error", "/slow"]

/-- One reported request of `LoadTester.make_request`
(load-test_20250618112717.py lines 30-47): endpoint, status code, elapsed
response time, success flag, and the error message on failure. -/
structure RequestResult where
  endpoint : String
  status_code : ℕ
  response_time : ℚ
  success : Bool
  error : Option String
deriving DecidableEq, Repr

/-- Embeds `LoadTester.make_request`: a completed HTTP exchange reports its
status code and timing with `success = true`; a raised exception reports
status 0, time 0, `success = false` and the message. -/
def make_request (endpoint : String) (resp : Except String (ℕ × ℚ)) :
    RequestResult :=
  match resp with
  | .ok (code, elapsed) => ⟨endpoint, code, elapsed, true, none⟩
  | .error msg => ⟨endpoint, 0, 0, false, some msg⟩

/-- The endpoint choice of one worker iteration
(load-test_20250618112717.py lines 55-59): 90% of rolls pick from the normal
list, the rest from the error list; `random.choice` is modelled as an
arbitrary index reduced mod the list length. -/
def choose_endpoint (roll : ℚ) (pick : ℕ) : String :=
  if roll < 9 / 10 then endpoints.getD (pick % endpoints.length) "/"
  else error_endpoints.getD (pick % error_endpoints.length) "/error"

/-- The nondeterministic inputs of one worker iteration: the 90/10 roll, the
endpoint pick, and the outcome of the HTTP request. -/
structure WorkerStep where
  roll : ℚ
  pick : ℕ
  resp : Except String (ℕ × ℚ)

/-- One observable action of a worker: issuing (and reporting) a request, or
sleeping. -/
inductive WorkerEvent where
  | req (r : RequestResult)
  | sleep (t : ℚ)
deriving DecidableEq, Repr

/-- Embeds `LoadTester.worker` (load-test_20250618112717.py lines 49-69):
`interval = 1.0 / requests_per_second`; each iteration until the deadline
chooses an endpoint, makes and reports the request, and sleeps `interval`.
The `while time < end_time` loop is modelled on the finite list of iterations
it performs. -/
def worker (requests_per_second : ℚ) (steps : List WorkerStep) :
    List WorkerEvent :=
  let interval := 1 / requests_per_second
  steps.flatMap fun st =>
    [.req (make_request (choose_endpoint st.roll st.pick) st.resp),
      .sleep interval]

/-- The per-worker rate `run_load_test` hands to each of its `num_threads`
workers (load-test_20250618112717.py line 84:
`executor.submit(self.worker, duration, requests_per_second / num_threads)`). -/
def rate_per_worker (requests_per_second : ℚ) (num_threads : ℕ) : ℚ :=
  requests_per_second / (num_threads : ℚ)

/-- Embeds `LoadTester.run_load_test` (load-test_20250618112717.py lines
71-88): `num_threads` workers are started, each with the aggregate rate split
evenly; worker `k` consumes its own iteration list `stepss k`. -/
def run_load_test (requests_per_second : ℚ) (num_threads : ℕ)
    (stepss : ℕ → List WorkerStep) : List (List WorkerEvent) :=
  (List.range num_threads).map fun k =>
    worker (rate_per_worker requests_per_second num_threads) (stepss k)

/-- C9: the traffic generator splits the configured aggregate rate evenly
across the configured number of worker threads (n workers at rate/n recover
the aggregate, and exactly num_threads workers are spawned, all at
`requests_per_second / num_threads`); each worker sleeps exactly
`1 / rate_per_worker` between consecutive requests; every request targets an
endpoint from the fixed endpoint lists; and each request is reported as
success/failure with its timing. -/
theorem c9_load_generator_even_split_and_rate :
    (∀ (rps : ℚ) (n : ℕ), (n : ℚ) ≠ 0 → rate_per_worker rps n * (n : ℚ) = rps) ∧
      (∀ (rps : ℚ) (n : ℕ) (stepss : ℕ → List WorkerStep),
        (run_load_test rps n stepss).length = n) ∧
      (∀ (rps : ℚ) (n : ℕ) (stepss : ℕ → List WorkerStep)
        (ws : List WorkerEvent) (t : ℚ),
        ws ∈ run_load_test rps n stepss → WorkerEvent.sleep t ∈ ws →
          t = 1 / rate_per_worker rps n) ∧
      (∀ (roll : ℚ) (pick : ℕ),
        choose_endpoint roll pick ∈ endpoints ++ error_endpoints) ∧
      (∀ (e : String) (code : ℕ) (elapsed : ℚ),
        make_request e (.ok (code, elapsed)) = ⟨e, code, elapsed, true, none⟩) ∧
      (∀ (e msg : String),
        make_request e (.error msg) = ⟨e, 0, 0, false, some msg⟩) := by
  refine ⟨?_, ?_, ?_, ?_, ?_, ?_⟩
  · intro rps n hn
    unfold rate_per_worker
    field_simp
  · intro rps n stepss
    simp [run_load_test]
  · intro rps n stepss ws t hws hsleep
    simp only [run_load_test, List.mem_map] at hws
    obtain ⟨k, -, rfl⟩ := hws
    simp only [worker, List.mem_flatMap, List.mem_cons,
      List.mem_singleton] at hsleep
    obtain ⟨st, -, h | h | h⟩ := hsleep
    · exact absurd h (by simp)
    · exact (WorkerEvent.sleep.injEq _ _).mp h
    · exact absurd h (by simp)
  · intro roll pick
    unfold choose_endpoint
    split
    · have h : pick % endpoints.length < endpoints.length := by
        simp [endpoints]
        omega
      rw [List.getD_eq_getElem _ _ h]
      exact List.mem_append_left _ (List.getElem_mem h)
    · have h : pick % error_endpoints.length < error_endpoints.length := by
        simp [error_endpoints]
        omega
      rw [List.getD_eq_getElem _ _ h]
      exact List.mem_append_right _ (List.getElem_mem h)
  · intro e code elapsed
    rfl
  · intro e msg
    rfl

/-- Witness for C9: four workers at an aggregate rate of 10 requests/second
run at 5/2 each, and the first worker's sleep between requests is 2/5 s. -/
theorem c9_load_generator_even_split_and_rate_witness :
    rate_per_worker 10 4 * ((4 : ℕ) : ℚ) = 10 ∧
      ((2 : ℚ) / 5) = 1 / rate_per_worker 10 4 :=
  ⟨c9_load_generator_even_split_and_rate.1 10 4 (by norm_num),
    c9_load_generator_even_split_and_rate.2.2.1 10 4
      (fun _ => [⟨0, 0, .ok (200, 1)⟩])
      (worker (rate_per_worker 10 4) [⟨0, 0, .ok (200, 1)⟩]) (2 / 5)
      (List.mem_map.mpr ⟨0, by simp, rfl⟩)
      (by norm_num [worker, rate_per_worker])⟩
